import Mathlib

/-!
Verification of the ShopZone e-commerce backend: a shallow embedding of the
order-placement / order-cancellation workflow
(`Server-FastAPI_Supabase/app/routers/orders.py`) and of the avatar
image-ingestion workflow
(`Server - FastApi + Supabase/app/utils/storage.py`, `app/routers/auth.py`),
together with theorems settling the specification's claims about them.

The remote database and blob store are modelled as explicit state (lists of
rows / object names); each fallible remote call is given an injected outcome
(success, empty result set, or raised exception) mirroring how the supabase
client surfaces failures to the Python code.  Monetary values are `ℚ`,
quantities are `ℤ` (Python ints), identifiers are `String`.
-/

namespace ShopZone

/-! ## Data model (rows of the remote tables) -/

/-- Row of the `products` table (the fields read by the order workflow). -/
structure Product where
  id : String
  name : String
  price : ℚ
  stock_quantity : Int
  is_active : Bool
deriving DecidableEq, Repr

/-- Row of the `orders` table as inserted by `create_order`. -/
structure OrderRec where
  id : String
  user_id : String
  status : String
  total_amount : ℚ
  shipping_address : String
  payment_method : String
  notes : Option String
  created_at : String
  updated_at : Option String
deriving DecidableEq, Repr

/-- Row of the `order_items` table. -/
structure OrderItemRec where
  id : String
  order_id : String
  product_id : String
  quantity : Int
  unit_price : ℚ
deriving DecidableEq, Repr

/-- Row of the `cart_items` table (only the owner reference matters here). -/
structure CartItemRec where
  id : String
  user_id : String
  product_id : String
  quantity : Int
deriving DecidableEq, Repr

/-- State of the relational store: the four tables the order workflow touches. -/
structure DB where
  products : List Product
  orders : List OrderRec
  order_items : List OrderItemRec
  cart_items : List CartItemRec
deriving DecidableEq, Repr

/-- An `HTTPException` carried to the client: status code and detail string. -/
structure HErr where
  status_code : Nat
  detail : String
deriving DecidableEq, Repr

/-! ## Order placement (`create_order`, orders.py lines 153-272) -/

/-- One entry of the client-supplied `items` list.  The handler reads only
`product_id` (falling back to `id`) and `quantity`; a client-supplied
`price` field is representable but never read by any definition below. -/
structure ReqItem where
  product_id : Option String := none
  id : Option String := none
  quantity : Option Int := none
  price : Option ℚ := none
deriving DecidableEq, Repr

/-- Request body of `POST /orders` (`order_data: dict` with `.get` defaults). -/
structure OrderData where
  items : List ReqItem := []
  shipping_address : String := ""
  payment_method : String := "cod"
  notes : Option String := none
deriving DecidableEq, Repr

/-- Effective product id of an item: `item.get("product_id") or item.get("id")`
(Python `or` falls through on a missing key and on the falsy `""`). -/
def ReqItem.pid (it : ReqItem) : Option String :=
  match it.product_id with
  | some p => if p = "" then it.id else some p
  | none => it.id

/-- Effective quantity of an item: `item.get("quantity", 1)`. -/
def ReqItem.qty (it : ReqItem) : Int :=
  it.quantity.getD 1

/-- Rendering of the product id inside the 404 detail string
(`f"Product {product_id} not found"`; Python prints `None` for a missing id). -/
def pidText : Option String → String
  | some s => s
  | none => "None"

/-- First row of `products` matching `.eq("id", product_id).eq("is_active", True)`. -/
def findActiveProduct (db : DB) (pid : Option String) : Option Product :=
  db.products.find? (fun p => pid == some p.id && p.is_active)

/-- A line item assembled by the validation loop, before `order_id` is attached. -/
structure PendingItem where
  id : String
  product_id : String
  quantity : Int
  unit_price : ℚ
deriving DecidableEq, Repr

/-- Validation/pricing loop of `create_order` (lines 176-208): walks the items,
fetches each product, checks stock, prices the line at the catalog price and
accumulates the total.  `ids` supplies the per-item `uuid4` values. -/
def buildItems (db : DB) : List ReqItem → List String → Except HErr (ℚ × List PendingItem)
  | [], _ => .ok (0, [])
  | it :: rest, ids =>
    let quantity := it.qty
    match findActiveProduct db it.pid with
    | none => .error ⟨404, "Product " ++ pidText it.pid ++ " not found"⟩
    | some product =>
      if product.stock_quantity < quantity then
        .error ⟨400, "Insufficient stock for product " ++ product.name⟩
      else
        let unit_price := product.price
        match buildItems db rest ids.tail with
        | .error e => .error e
        | .ok (t, rows) =>
          .ok (unit_price * (quantity : ℚ) + t,
               ⟨ids.headD "", (it.pid).getD "", quantity, unit_price⟩ :: rows)

/-- Injected outcomes of the fallible remote calls inside `create_order`:
an insert "fails" when its `execute()` returns no data (the condition the
code checks), and the cart-clearing delete may raise an exception carrying
the given message (the supabase client raises `APIError` on failure). -/
structure OrderFaults where
  ordersInsertFails : Bool := false
  itemsInsertFails : Bool := false
  cartDeleteExc : Option String := none
deriving DecidableEq, Repr

deriving instance DecidableEq for Except

/-- Payload of the success envelope returned by `create_order`. -/
structure OrderResp where
  order_id : String
  total_amount : ℚ
  status : String
deriving DecidableEq, Repr

/-- Response together with the final state of the store. -/
structure OrderOutcome where
  resp : Except HErr OrderResp
  db : DB
deriving DecidableEq, Repr

/-- Read-then-write stock decrement for one line item (lines 245-252):
read `stock_quantity` of the first row with this product id; if present,
write back `current - quantity` to every row with this id. -/
def decrementStock (products : List Product) (row : OrderItemRec) : List Product :=
  match products.find? (fun p => p.id == row.product_id) with
  | none => products
  | some p =>
    let new_stock := p.stock_quantity - row.quantity
    products.map (fun q => if q.id == row.product_id then { q with stock_quantity := new_stock } else q)

/-- Handler of `POST /orders` (lines 153-272).  `itemIds` and `order_id`
stand for the freshly generated `uuid4` values. -/
def create_order (user_id : String) (order_data : OrderData) (itemIds : List String)
    (order_id : String) (faults : OrderFaults) (db : DB) : OrderOutcome :=
  if order_data.items = [] then
    ⟨.error ⟨400, "Order must contain at least one item"⟩, db⟩
  else
    match buildItems db order_data.items itemIds with
    | .error e => ⟨.error e, db⟩
    | .ok (total_amount, pending) =>
      let order_record : OrderRec :=
        { id := order_id, user_id := user_id, status := "pending",
          total_amount := total_amount,
          shipping_address := order_data.shipping_address,
          payment_method := order_data.payment_method,
          notes := order_data.notes,
          created_at := "now()", updated_at := none }
      if faults.ordersInsertFails then
        ⟨.error ⟨400, "Failed to create order"⟩, db⟩
      else
        let db1 : DB := { db with orders := db.orders ++ [order_record] }
        let order_items_data : List OrderItemRec :=
          pending.map (fun r => ⟨r.id, order_id, r.product_id, r.quantity, r.unit_price⟩)
        if faults.itemsInsertFails then
          let db2 : DB := { db1 with orders := db1.orders.filter (fun o => !(o.id == order_id)) }
          ⟨.error ⟨400, "Failed to create order items"⟩, db2⟩
        else
          let db2 : DB := { db1 with order_items := db1.order_items ++ order_items_data }
          let db3 : DB := { db2 with products := order_items_data.foldl decrementStock db2.products }
          match faults.cartDeleteExc with
          | some msg =>
            ⟨.error ⟨500, "Failed to create order: " ++ msg⟩, db3⟩
          | none =>
            let db4 : DB := { db3 with cart_items := db3.cart_items.filter (fun c => !(c.user_id == user_id)) }
            ⟨.ok ⟨order_id, total_amount, "pending"⟩, db4⟩

/-! ## Order cancellation (`cancel_order`, orders.py lines 274-334) -/

/-- Injected outcome of the status-update call inside `cancel_order`. -/
structure CancelFaults where
  updateFails : Bool := false
deriving DecidableEq, Repr

/-- Payload of the success envelope returned by `cancel_order`. -/
structure CancelResp where
  order_id : String
  status : String
deriving DecidableEq, Repr

/-- Response together with the final state of the store. -/
structure CancelOutcome where
  resp : Except HErr CancelResp
  db : DB
deriving DecidableEq, Repr

/-- Read-then-write stock restoration for one line item (lines 315-321):
read `stock_quantity` of the first row with this product id; if present,
write back `current + quantity` to every row with this id. -/
def restoreStock (products : List Product) (it : OrderItemRec) : List Product :=
  match products.find? (fun p => p.id == it.product_id) with
  | none => products
  | some p =>
    products.map (fun q => if q.id == it.product_id then { q with stock_quantity := p.stock_quantity + it.quantity } else q)

/-- Handler of `PUT /orders/{id}/cancel` (lines 274-334). -/
def cancel_order (order_id user_id : String) (faults : CancelFaults) (db : DB) : CancelOutcome :=
  match db.orders.find? (fun o => o.id == order_id && o.user_id == user_id) with
  | none => ⟨.error ⟨404, "Order not found"⟩, db⟩
  | some order =>
    if !(order.status == "pending" || order.status == "confirmed") then
      ⟨.error ⟨400, "Order cannot be cancelled"⟩, db⟩
    else if faults.updateFails then
      ⟨.error ⟨400, "Failed to cancel order"⟩, db⟩
    else
      let db1 : DB :=
        { db with orders := db.orders.map (fun o =>
            if o.id == order_id then { o with status := "cancelled", updated_at := some "now()" } else o) }
      let items := db1.order_items.filter (fun it => it.order_id == order_id)
      let db2 : DB := { db1 with products := items.foldl restoreStock db1.products }
      ⟨.ok ⟨order_id, "cancelled"⟩, db2⟩

/-! ## Image ingestion (`storage.py` and `auth.py`)

Image bytes are modelled by their observables: byte length, whether PIL's
`Image.open` succeeds on them, and (when it does) the decoded mode and pixel
dimensions.  The blob store is the list of object names inside the
`avatars/` folder. -/

/-- Observables of a byte string fed to the image pipeline. -/
structure ImgBytes where
  size : Nat
  decodable : Bool
  mode : String
  width : Nat
  height : Nat
deriving DecidableEq, Repr

/-- `StorageManager.max_file_size` (5 MiB). -/
def max_file_size : Nat := 5 * 1024 * 1024

/-- `StorageManager.allowed_types`. -/
def allowed_types : List String := ["image/jpeg", "image/png", "image/webp", "image/gif"]

/-- Detail string of the content-type rejection
(`f"Invalid file type. Allowed types: {', '.join(self.allowed_types)}"`). -/
def invalidTypeMsg : String :=
  "Invalid file type. Allowed types: " ++ String.intercalate ", " allowed_types

/-- `StorageManager._validate_image` (storage.py lines 65-81): size limit,
content-type allow-list, then a decode check via `Image.open`. -/
def validate_image (file_data : ImgBytes) (content_type : Option String) : Except HErr Bool :=
  if max_file_size < file_data.size then
    .error ⟨413, "File too large. Maximum size is 5MB"⟩
  else if !((allowed_types.map some).contains content_type) then
    .error ⟨400, invalidTypeMsg⟩
  else if !file_data.decodable then
    .error ⟨400, "Invalid image file"⟩
  else
    .ok true

/-- Observables of the bytes produced by re-encoding: decoded mode and
dimensions plus the encoder parameters used. -/
structure OutImage where
  mode : String
  width : Nat
  height : Nat
  format : String
  quality : Nat
  optimize : Bool
deriving DecidableEq, Repr

/-- Modes PIL's JPEG encoder accepts (keys of `JpegImagePlugin.RAWMODE`);
saving any other mode raises `cannot write mode ... as JPEG`. -/
def jpegSaveModes : List String := ["1", "L", "RGB", "RGBX", "CMYK", "YCbCr"]

/-- Channel count of a PIL mode (used to state the "3-channel" claim). -/
def modeChannels : String → Nat
  | "1" => 1
  | "L" => 1
  | "P" => 1
  | "LA" => 2
  | "RGB" => 3
  | "YCbCr" => 3
  | "RGBA" => 4
  | "RGBX" => 4
  | "CMYK" => 4
  | _ => 0

/-- `round_aspect(number, key)` inside `PIL.Image.thumbnail`:
`max(min(math.floor(number), math.ceil(number), key=key), 1)` (Python's
two-argument `min` with a key returns the first argument on ties). -/
def roundAspect (number : ℚ) (key : ℤ → ℚ) : ℤ :=
  let f := ⌊number⌋
  let c := ⌈number⌉
  max (if key f ≤ key c then f else c) 1

/-- Output pixel size of `image.thumbnail((bw, bh))`: no-op when the image
already fits the box, otherwise scale down preserving the aspect ratio. -/
def thumbnailSize (w h bw bh : Nat) : Nat × Nat :=
  if w ≤ bw ∧ h ≤ bh then (w, h)
  else
    let aspect : ℚ := (w : ℚ) / (h : ℚ)
    if aspect ≤ (bw : ℚ) / (bh : ℚ) then
      let x := roundAspect ((bh : ℚ) * aspect) (fun n => |aspect - (n : ℚ) / (bh : ℚ)|)
      (x.toNat, bh)
    else
      let y := roundAspect ((bw : ℚ) / aspect) (fun n => if n = 0 then 0 else |aspect - (bw : ℚ) / (n : ℚ)|)
      (bw, y.toNat)

/-- `StorageManager._resize_image` (storage.py lines 83-100): decode, convert
RGBA/P to RGB, `thumbnail((800, 800))`, save as JPEG quality 85 optimized.
Any PIL exception is wrapped in a 400 `Error processing image: ...`. -/
def resize_image (file_data : ImgBytes) : Except HErr OutImage :=
  if !file_data.decodable then
    .error ⟨400, "Error processing image: cannot identify image file"⟩
  else
    let mode := if file_data.mode == "RGBA" || file_data.mode == "P" then "RGB" else file_data.mode
    let wh := thumbnailSize file_data.width file_data.height 800 800
    if jpegSaveModes.contains mode then
      .ok ⟨mode, wh.1, wh.2, "JPEG", 85, true⟩
    else
      .error ⟨400, "Error processing image: cannot write mode " ++ mode ++ " as JPEG"⟩

/-- Python's `name.startswith(pre)`, via the underlying character lists. -/
def strStartsWith (name pre : String) : Bool :=
  pre.data.isPrefixOf name.data

/-- Injected outcomes of the blob-store calls: `deleteFails` covers a raised
or failed `list`/`remove` (swallowed inside `delete_user_avatar`), and
`uploadError` a failed `upload` (surfaced as a 500). -/
structure StorageFaults where
  deleteFails : Bool := false
  uploadError : Option String := none
deriving DecidableEq, Repr

/-- `StorageManager.delete_user_avatar` (storage.py lines 190-211): list the
avatar folder, remove every object whose name starts with `user_id + "_"`;
all failures are swallowed and reported as `false`. -/
def delete_user_avatar (user_id : String) (faults : StorageFaults) (store : List String) :
    Bool × List String :=
  if faults.deleteFails then
    (false, store)
  else
    let user_files := store.filter (fun n => strStartsWith n (user_id ++ "_"))
    if user_files.isEmpty then
      (true, store)
    else
      (true, store.filter (fun n => !strStartsWith n (user_id ++ "_")))

/-- `StorageManager.bucket_name`. -/
def bucket_name : String := "Ecommerce-Storage"

/-- Public URL resolved by `get_public_url` for a path inside the bucket. -/
def public_url (path : String) : String :=
  "https://supabase.example/storage/v1/object/public/" ++ bucket_name ++ "/" ++ path

/-- A multipart upload: its bytes and the resolved content type
(`file.content_type or mimetypes.guess_type(file.filename)[0]`). -/
structure UploadFile where
  data : ImgBytes
  content_type : Option String
deriving DecidableEq, Repr

/-- `StorageManager.upload_avatar` (storage.py lines 102-144): validate,
resize, generate `user_id + "_" + uuid4().hex + ".jpg"`, best-effort delete
of the old avatars, upload, return the public URL.  `uuid_hex` stands for
the generated token; the result pairs the response with the final store. -/
def upload_avatar (user_id : String) (file : UploadFile) (uuid_hex : String)
    (faults : StorageFaults) (store : List String) : Except HErr String × List String :=
  match validate_image file.data file.content_type with
  | .error e => (.error e, store)
  | .ok _ =>
    match resize_image file.data with
    | .error e => (.error e, store)
    | .ok _optimized =>
      let filename := user_id ++ "_" ++ uuid_hex ++ ".jpg"
      let store1 := (delete_user_avatar user_id faults store).2
      match faults.uploadError with
      | some err => (.error ⟨500, "Upload failed: " ++ err⟩, store1)
      | none => (.ok (public_url ("avatars/" ++ filename)), store1 ++ [filename])

/-- A base64 upload: whether `base64.b64decode` succeeds after stripping a
`data:` prefix, and the observables of the decoded bytes. -/
structure Base64Input where
  b64Valid : Bool
  data : ImgBytes
deriving DecidableEq, Repr

/-- `StorageManager.upload_from_base64` (storage.py lines 146-188): decode the
base64 payload, validate it with the hard-coded content type `"image/jpeg"`,
resize, delete old avatars, upload.  A decode exception reaches the generic
handler and becomes a 500 `Base64 upload error`. -/
def upload_from_base64 (user_id : String) (input : Base64Input) (uuid_hex : String)
    (faults : StorageFaults) (store : List String) : Except HErr String × List String :=
  if !input.b64Valid then
    (.error ⟨500, "Base64 upload error: invalid base64-encoded string"⟩, store)
  else
    match validate_image input.data (some "image/jpeg") with
    | .error e => (.error e, store)
    | .ok _ =>
      match resize_image input.data with
      | .error e => (.error e, store)
      | .ok _optimized =>
        let filename := user_id ++ "_" ++ uuid_hex ++ ".jpg"
        let store1 := (delete_user_avatar user_id faults store).2
        match faults.uploadError with
        | some err => (.error ⟨500, "Upload failed: " ++ err⟩, store1)
        | none => (.ok (public_url ("avatars/" ++ filename)), store1 ++ [filename])

/-- Image-normalization core of `process_and_upload_avatar` (auth.py lines
45-58): convert any non-RGB mode to RGB, crop-and-fit to exactly 300 by 300
with `ImageOps.fit`, save as JPEG quality 85 optimized. -/
def process_image_300 (img : ImgBytes) : Except String OutImage :=
  if !img.decodable then
    .error "Avatar processing failed: cannot identify image file"
  else
    .ok ⟨"RGB", 300, 300, "JPEG", 85, true⟩

/-! ## Derived quantities and helper lemmas -/

/-- Catalog value of one requested line: current catalog price of the
referenced active product times the requested quantity. -/
def lineTotal (db : DB) (it : ReqItem) : ℚ :=
  match findActiveProduct db it.pid with
  | some p => p.price * (it.qty : ℚ)
  | none => 0

/-- Sum over the requested items of catalog unit price times quantity. -/
def expectedTotal (db : DB) (items : List ReqItem) : ℚ :=
  (items.map (lineTotal db)).sum

/-- Validation loop on a request whose items all reference existing active
products with sufficient stock: it succeeds, prices every line at the
catalog price, and totals to `expectedTotal`. -/
lemma buildItems_ok (db : DB) :
    ∀ (items : List ReqItem) (ids : List String),
      (∀ it ∈ items, ∃ p, findActiveProduct db it.pid = some p ∧ it.qty ≤ p.stock_quantity) →
      ∃ rows, buildItems db items ids = .ok (expectedTotal db items, rows) ∧
        rows.length = items.length ∧
        rows.map PendingItem.quantity = items.map ReqItem.qty ∧
        (rows.map (fun r => r.unit_price * (r.quantity : ℚ))).sum = expectedTotal db items ∧
        ∀ r ∈ rows, ∃ p, findActiveProduct db (some r.product_id) = some p ∧ r.unit_price = p.price := by
  intro items
  induction items with
  | nil =>
    intro ids _
    exact ⟨[], by simp [buildItems, expectedTotal], by simp, by simp, by simp [expectedTotal], by simp⟩
  | cons it rest ih =>
    intro ids hall
    obtain ⟨p, hp, hq⟩ := hall it (List.mem_cons_self _ _)
    obtain ⟨rows, hb, hlen, hqs, hsum, hrows⟩ :=
      ih ids.tail (fun x hx => hall x (List.mem_cons_of_mem _ hx))
    have hpid : it.pid = some p.id := by
      have := List.find?_some hp
      simp only [Bool.and_eq_true, beq_iff_eq] at this
      exact this.1
    have htot : expectedTotal db (it :: rest) =
        p.price * (it.qty : ℚ) + expectedTotal db rest := by
      simp [expectedTotal, lineTotal, hp]
    refine ⟨⟨ids.headD "", it.pid.getD "", it.qty, p.price⟩ :: rows, ?_, ?_, ?_, ?_, ?_⟩
    · simp [buildItems, hp, not_lt.mpr hq, hb, htot]
    · simp [hlen]
    · simp [hqs]
    · simp [htot, hsum]
    · intro r hr
      rcases List.mem_cons.mp hr with h | h
      · subst h
        refine ⟨p, ?_, rfl⟩
        simpa [hpid] using hp
      · exact hrows r h

/-- Validation loop on a request whose items all reference existing active
products but where some item overdraws stock: it aborts with the 400
insufficient-stock error naming the product. -/
lemma buildItems_insufficient (db : DB) :
    ∀ (items : List ReqItem) (ids : List String),
      (∀ it ∈ items, ∃ p, findActiveProduct db it.pid = some p) →
      (∃ it ∈ items, ∃ p, findActiveProduct db it.pid = some p ∧ p.stock_quantity < it.qty) →
      ∃ it p, it ∈ items ∧ findActiveProduct db it.pid = some p ∧ p.stock_quantity < it.qty ∧
        buildItems db items ids = .error ⟨400, "Insufficient stock for product " ++ p.name⟩ := by
  intro items
  induction items with
  | nil =>
    intro ids _ hbad
    simp at hbad
  | cons it rest ih =>
    intro ids hall hbad
    obtain ⟨p, hp⟩ := hall it (List.mem_cons_self _ _)
    by_cases hlt : p.stock_quantity < it.qty
    · refine ⟨it, p, List.mem_cons_self _ _, hp, hlt, ?_⟩
      simp only [buildItems, hp, if_pos hlt]
    · have hrest : ∃ x ∈ rest, ∃ q, findActiveProduct db x.pid = some q ∧ q.stock_quantity < x.qty := by
        obtain ⟨x, hx, q, hq, hqlt⟩ := hbad
        rcases List.mem_cons.mp hx with h | h
        · subst h
          rw [hp] at hq
          cases hq
          exact absurd hqlt hlt
        · exact ⟨x, h, q, hq, hqlt⟩
      obtain ⟨x, q, hx, hq, hqlt, hberr⟩ :=
        ih ids.tail (fun y hy => hall y (List.mem_cons_of_mem _ hy)) hrest
      refine ⟨x, q, List.mem_cons_of_mem _ hx, hq, hqlt, ?_⟩
      simp only [buildItems, hp, if_neg hlt, hberr]

/-- Order header record inserted by `create_order` for a validated request. -/
def ordRecOf (user_id oid : String) (od : OrderData) (T : ℚ) : OrderRec :=
  ⟨oid, user_id, "pending", T, od.shipping_address, od.payment_method, od.notes, "now()", none⟩

/-- Line-item rows inserted by `create_order`: the pending items with the
fresh order id attached. -/
def rowsFull (oid : String) (rows : List PendingItem) : List OrderItemRec :=
  rows.map (fun r => ⟨r.id, oid, r.product_id, r.quantity, r.unit_price⟩)

/-- Outcome of `create_order` on the all-success path: validated request,
both inserts return data, cart delete does not raise. -/
lemma create_order_success (user_id : String) (od : OrderData) (itemIds : List String)
    (oid : String) (faults : OrderFaults) (db : DB) (T : ℚ) (rows : List PendingItem)
    (hne : od.items ≠ [])
    (hb : buildItems db od.items itemIds = .ok (T, rows))
    (hf1 : faults.ordersInsertFails = false) (hf2 : faults.itemsInsertFails = false)
    (hf3 : faults.cartDeleteExc = none) :
    create_order user_id od itemIds oid faults db =
      ⟨.ok ⟨oid, T, "pending"⟩,
       ⟨(rowsFull oid rows).foldl decrementStock db.products,
        db.orders ++ [ordRecOf user_id oid od T],
        db.order_items ++ rowsFull oid rows,
        db.cart_items.filter (fun c => !(c.user_id == user_id))⟩⟩ := by
  simp [create_order, hne, hb, hf1, hf2, hf3, ordRecOf, rowsFull]

/-- Outcome of `create_order` when everything succeeds except that the final
cart-clearing delete raises an exception with message `m`: the generic
handler turns it into a 500, but the inserted order, line items and stock
decrements all remain, and the cart is left as it was. -/
lemma create_order_cart_exc (user_id : String) (od : OrderData) (itemIds : List String)
    (oid : String) (faults : OrderFaults) (db : DB) (T : ℚ) (rows : List PendingItem) (m : String)
    (hne : od.items ≠ [])
    (hb : buildItems db od.items itemIds = .ok (T, rows))
    (hf1 : faults.ordersInsertFails = false) (hf2 : faults.itemsInsertFails = false)
    (hf3 : faults.cartDeleteExc = some m) :
    create_order user_id od itemIds oid faults db =
      ⟨.error ⟨500, "Failed to create order: " ++ m⟩,
       ⟨(rowsFull oid rows).foldl decrementStock db.products,
        db.orders ++ [ordRecOf user_id oid od T],
        db.order_items ++ rowsFull oid rows,
        db.cart_items⟩⟩ := by
  simp [create_order, hne, hb, hf1, hf2, hf3, ordRecOf, rowsFull]

/-- Outcome of `create_order` when the line-items insert returns no data:
the handler deletes the just-inserted header and reports a 400; products,
line items and cart are untouched. -/
lemma create_order_items_fail (user_id : String) (od : OrderData) (itemIds : List String)
    (oid : String) (faults : OrderFaults) (db : DB) (T : ℚ) (rows : List PendingItem)
    (hne : od.items ≠ [])
    (hb : buildItems db od.items itemIds = .ok (T, rows))
    (hf1 : faults.ordersInsertFails = false) (hf2 : faults.itemsInsertFails = true) :
    create_order user_id od itemIds oid faults db =
      ⟨.error ⟨400, "Failed to create order items"⟩,
       ⟨db.products,
        (db.orders ++ [ordRecOf user_id oid od T]).filter (fun o => !(o.id == oid)),
        db.order_items,
        db.cart_items⟩⟩ := by
  simp [create_order, hne, hb, hf1, hf2, ordRecOf]

/-! ## Claim C1 -/

/-- C1: for every order-placement request whose items all reference existing
active products with sufficient stock (and whose remote inserts and cart
delete succeed), the created order's `total_amount` equals the sum over the
items of the catalog unit price at placement time times the requested
quantity, every persisted line item is priced from the product catalog
(never from the client-supplied `price` field, over which the theorem
quantifies), and the returned order status is "pending". -/
theorem create_order_prices_from_catalog (db : DB) (user_id : String) (od : OrderData)
    (itemIds : List String) (oid : String) (faults : OrderFaults)
    (hne : od.items ≠ [])
    (hall : ∀ it ∈ od.items, ∃ p, findActiveProduct db it.pid = some p ∧ it.qty ≤ p.stock_quantity)
    (hf1 : faults.ordersInsertFails = false) (hf2 : faults.itemsInsertFails = false)
    (hf3 : faults.cartDeleteExc = none) :
    ∃ rows : List OrderItemRec,
      create_order user_id od itemIds oid faults db =
        ⟨.ok ⟨oid, expectedTotal db od.items, "pending"⟩,
         ⟨rows.foldl decrementStock db.products,
          db.orders ++ [ordRecOf user_id oid od (expectedTotal db od.items)],
          db.order_items ++ rows,
          db.cart_items.filter (fun c => !(c.user_id == user_id))⟩⟩ ∧
      (rows.map (fun r => r.unit_price * (r.quantity : ℚ))).sum = expectedTotal db od.items ∧
      rows.map OrderItemRec.quantity = od.items.map ReqItem.qty ∧
      ∀ r ∈ rows, r.order_id = oid ∧
        ∃ p, findActiveProduct db (some r.product_id) = some p ∧ r.unit_price = p.price := by
  obtain ⟨rows, hb, hlen, hqs, hsum, hrows⟩ := buildItems_ok db od.items itemIds hall
  refine ⟨rowsFull oid rows, ?_, ?_, ?_, ?_⟩
  · exact create_order_success user_id od itemIds oid faults db _ rows hne hb hf1 hf2 hf3
  · simpa [rowsFull, List.map_map, Function.comp] using hsum
  · simpa [rowsFull, List.map_map, Function.comp] using hqs
  · intro r hr
    simp only [rowsFull, List.mem_map] at hr
    obtain ⟨r0, hr0, rfl⟩ := hr
    exact ⟨rfl, hrows r0 hr0⟩

/-! ## Claim C2 -/

/-- Store used in the C2 counterexample: product P2 exists with stock 1,
product P1 does not exist. -/
def dbC2 : DB := ⟨[⟨"P2", "Gadget", 50, 1, true⟩], [], [], []⟩

/-- Request used in the C2 counterexample: the first item references the
missing product P1, the second overdraws P2's stock (5 requested, 1 held). -/
def reqC2 : OrderData := { items := [⟨some "P1", none, some 1, none⟩, ⟨some "P2", none, some 5, none⟩] }

/-- C2 counterexample: a request containing an item whose quantity exceeds
that product's stock (P2: 5 requested, stock 1) does not always fail with
the 400/409 ConflictError the claim demands: when an earlier item references
a missing product, the operation fails with the 404 NotFoundError instead.
Nothing is persisted, but the error class differs from the claim. -/
theorem create_order_mixed_request_not_conflict :
    (∃ it ∈ reqC2.items, ∃ p, findActiveProduct dbC2 it.pid = some p ∧ p.stock_quantity < it.qty) ∧
    create_order "u1" reqC2 ["i1", "i2"] "o1" {} dbC2 =
      ⟨.error ⟨404, "Product P1 not found"⟩, dbC2⟩ := by
  constructor
  · refine ⟨⟨some "P2", none, some 5, none⟩, by simp [reqC2], ⟨"P2", "Gadget", 50, 1, true⟩, ?_, by norm_num [ReqItem.qty]⟩
    simp [findActiveProduct, dbC2, ReqItem.pid]
  · simp [create_order, reqC2, buildItems, findActiveProduct, dbC2, ReqItem.pid, pidText]

/-- C2 (amended): for every order-placement request whose items all reference
existing active products and in which some item's requested quantity exceeds
that product's current stock, the operation fails with the 400 ConflictError
naming a product whose stock is overdrawn, and nothing is persisted (the
store is returned unchanged). -/
theorem create_order_insufficient_stock_conflict (db : DB) (user_id : String) (od : OrderData)
    (itemIds : List String) (oid : String) (faults : OrderFaults)
    (hall : ∀ it ∈ od.items, ∃ p, findActiveProduct db it.pid = some p)
    (hbad : ∃ it ∈ od.items, ∃ p, findActiveProduct db it.pid = some p ∧ p.stock_quantity < it.qty) :
    ∃ it p, it ∈ od.items ∧ findActiveProduct db it.pid = some p ∧ p.stock_quantity < it.qty ∧
      create_order user_id od itemIds oid faults db =
        ⟨.error ⟨400, "Insufficient stock for product " ++ p.name⟩, db⟩ := by
  obtain ⟨it, p, hmem, hp, hlt, hberr⟩ := buildItems_insufficient db od.items itemIds hall hbad
  have hne : od.items ≠ [] := List.ne_nil_of_mem hmem
  refine ⟨it, p, hmem, hp, hlt, ?_⟩
  simp [create_order, hne, hberr]

/-! ## Claim C3 -/

/-- Store used as the C3 failing input: one active product with stock 5. -/
def dbC3 : DB := ⟨[⟨"P1", "Widget", 100, 5, true⟩], [], [], []⟩

/-- C3 failing input: a request item with quantity 0. -/
def reqC3zero : OrderData := { items := [⟨some "P1", none, some 0, none⟩] }

/-- C3 failing input variant: a request item with quantity -3. -/
def reqC3neg : OrderData := { items := [⟨some "P1", none, some (-3), none⟩] }

/-- C3 evaluated at the failing inputs: `create_order` applies no lower bound
to the requested quantity (the `OrderItemCreate` pydantic validator requiring
quantity > 0 is bypassed because the handler takes a raw dict), so a request
with quantity 0 succeeds and persists a line item with quantity 0, and a
request with quantity -3 succeeds, persists a negative-quantity line item
with total -300, and the stock "decrement" increases P1's stock from 5 to 8. -/
theorem create_order_accepts_nonpositive_quantity :
    ((create_order "u1" reqC3zero ["i1"] "o1" {} dbC3).resp = .ok ⟨"o1", 0, "pending"⟩ ∧
     (create_order "u1" reqC3zero ["i1"] "o1" {} dbC3).db.order_items =
       [⟨"i1", "o1", "P1", 0, 100⟩] ∧
     ¬(0 : Int) > 0) ∧
    ((create_order "u1" reqC3neg ["i1"] "o1" {} dbC3).resp = .ok ⟨"o1", -300, "pending"⟩ ∧
     (create_order "u1" reqC3neg ["i1"] "o1" {} dbC3).db.products =
       [⟨"P1", "Widget", 100, 8, true⟩]) := by
  refine ⟨⟨?_, ?_, by norm_num⟩, ?_, ?_⟩ <;>
    simp [create_order, reqC3zero, reqC3neg, buildItems, findActiveProduct, dbC3,
      ReqItem.pid, ReqItem.qty, decrementStock] <;> norm_num

/-! ## Claim C5 -/

/-- C5: when persisting the line items fails after the order header has been
inserted, `create_order` deletes the header again (compensating action),
reports a 400, and leaves no header row with the new order id; products,
line items and cart are untouched. -/
theorem create_order_items_failure_rolls_back_header (db : DB) (user_id : String)
    (od : OrderData) (itemIds : List String) (oid : String) (faults : OrderFaults)
    (hne : od.items ≠ [])
    (hall : ∀ it ∈ od.items, ∃ p, findActiveProduct db it.pid = some p ∧ it.qty ≤ p.stock_quantity)
    (hf1 : faults.ordersInsertFails = false) (hf2 : faults.itemsInsertFails = true) :
    (create_order user_id od itemIds oid faults db).resp =
      .error ⟨400, "Failed to create order items"⟩ ∧
    (create_order user_id od itemIds oid faults db).db.orders =
      db.orders.filter (fun o => !(o.id == oid)) ∧
    (∀ o ∈ (create_order user_id od itemIds oid faults db).db.orders, o.id ≠ oid) ∧
    (create_order user_id od itemIds oid faults db).db.order_items = db.order_items ∧
    (create_order user_id od itemIds oid faults db).db.products = db.products ∧
    (create_order user_id od itemIds oid faults db).db.cart_items = db.cart_items := by
  obtain ⟨rows, hb, _, _, _, _⟩ := buildItems_ok db od.items itemIds hall
  rw [create_order_items_fail user_id od itemIds oid faults db _ rows hne hb hf1 hf2]
  refine ⟨rfl, ?_, ?_, rfl, rfl, rfl⟩
  · simp [ordRecOf]
  · intro o ho
    simp only [List.mem_filter, Bool.not_eq_true', beq_eq_false_iff_ne] at ho
    exact ho.2

/-! ## Claim C6 -/

/-- Store used in the C6 counterexample: one product and one cart item of
the ordering user. -/
def dbC6 : DB := ⟨[⟨"P1", "Widget", 100, 5, true⟩], [], [], [⟨"c1", "u1", "P1", 2⟩]⟩

/-- Request used in the C6 counterexample. -/
def reqC6 : OrderData := { items := [⟨some "P1", none, some 2, none⟩] }

/-- Fault injection for the C6 counterexample: the cart-clearing delete
raises an exception. -/
def faultsC6 : OrderFaults := { cartDeleteExc := some "connection reset" }

/-- C6 counterexample: when the final cart-clearing delete raises, the
failure IS reported to the caller — the generic exception handler converts
it into a 500 response, so the call does not return success with the order
id as the claim states (the created order is nevertheless kept). -/
theorem create_order_cart_clear_exception_surfaces :
    (create_order "u1" reqC6 ["i1"] "o1" faultsC6 dbC6).resp =
      .error ⟨500, "Failed to create order: connection reset"⟩ ∧
    (∀ r, (create_order "u1" reqC6 ["i1"] "o1" faultsC6 dbC6).resp ≠ .ok r) ∧
    (create_order "u1" reqC6 ["i1"] "o1" faultsC6 dbC6).db.orders =
      [⟨"o1", "u1", "pending", 200, "", "cod", none, "now()", none⟩] := by
  refine ⟨?_, ?_, ?_⟩ <;>
    simp [create_order, reqC6, faultsC6, buildItems, findActiveProduct, dbC6,
      ReqItem.pid, ReqItem.qty] <;> norm_num

/-- C6 (amended): a failure of the final cart-clearing delete does not roll
back the created order — the header, the line items and the stock decrements
all remain and the cart is left untouched — but, contrary to the claim, the
failure is reported to the caller: the exception escapes to the generic
handler, which returns a 500 instead of the success envelope. -/
theorem create_order_cart_clear_failure_no_rollback (db : DB) (user_id : String)
    (od : OrderData) (itemIds : List String) (oid : String) (faults : OrderFaults) (m : String)
    (hne : od.items ≠ [])
    (hall : ∀ it ∈ od.items, ∃ p, findActiveProduct db it.pid = some p ∧ it.qty ≤ p.stock_quantity)
    (hf1 : faults.ordersInsertFails = false) (hf2 : faults.itemsInsertFails = false)
    (hf3 : faults.cartDeleteExc = some m) :
    ∃ rows : List OrderItemRec,
      create_order user_id od itemIds oid faults db =
        ⟨.error ⟨500, "Failed to create order: " ++ m⟩,
         ⟨rows.foldl decrementStock db.products,
          db.orders ++ [ordRecOf user_id oid od (expectedTotal db od.items)],
          db.order_items ++ rows,
          db.cart_items⟩⟩ ∧
      rows.length = od.items.length := by
  obtain ⟨rows, hb, hlen, _, _, _⟩ := buildItems_ok db od.items itemIds hall
  refine ⟨rowsFull oid rows, ?_, ?_⟩
  · exact create_order_cart_exc user_id od itemIds oid faults db _ rows m hne hb hf1 hf2 hf3
  · simp [rowsFull, hlen]

/-! ## Claim C4 -/

/-- Total quantity the line items of a cancelled order restore to the
product with id `pid`. -/
def addBack (items : List OrderItemRec) (pid : String) : Int :=
  ((items.filter (fun it => it.product_id == pid)).map OrderItemRec.quantity).sum

lemma addBack_cons (it : OrderItemRec) (its : List OrderItemRec) (pid : String) :
    addBack (it :: its) pid =
      (if (it.product_id == pid) = true then it.quantity else 0) + addBack its pid := by
  simp only [addBack, List.filter_cons]
  split
  · simp
  · simp

lemma restoreStock_map_id (ps : List Product) (it : OrderItemRec) :
    (restoreStock ps it).map Product.id = ps.map Product.id := by
  unfold restoreStock
  cases ps.find? (fun p => p.id == it.product_id) with
  | none => rfl
  | some p0 =>
    simp only [List.map_map]
    apply List.map_congr_left
    intro q _
    by_cases h : (q.id == it.product_id) = true
    · simp [Function.comp, h]
    · simp [Function.comp, h]

/-- Sequential read-then-write restoration over the line items of an order:
when product ids are pairwise distinct, it adds to every product's stock the
total quantity of the line items referencing it. -/
lemma restore_foldl (items : List OrderItemRec) :
    ∀ ps : List Product, (ps.map Product.id).Nodup →
      items.foldl restoreStock ps =
        ps.map (fun p => { p with stock_quantity := p.stock_quantity + addBack items p.id }) := by
  induction items with
  | nil =>
    intro ps _
    rw [List.foldl_nil]
    have h0 : ∀ p ∈ ps, ({ p with stock_quantity := p.stock_quantity + addBack [] p.id } : Product) = id p := by
      intro p _
      cases p
      simp [addBack]
    exact ((List.map_congr_left h0).trans (List.map_id ps)).symm
  | cons it its ih =>
    intro ps hnd
    rw [List.foldl_cons, ih (restoreStock ps it) (by rw [restoreStock_map_id]; exact hnd)]
    cases hfind : ps.find? (fun p => p.id == it.product_id) with
    | none =>
      rw [restoreStock, hfind]
      apply List.map_congr_left
      intro p hp
      have h1 : ¬(p.id = it.product_id) := by
        have := List.find?_eq_none.mp hfind p hp
        simpa [beq_iff_eq] using this
      have hne : (it.product_id == p.id) = false := by
        simp only [beq_eq_false_iff_ne]
        exact fun h => h1 h.symm
      rw [addBack_cons, hne]
      simp
    | some p0 =>
      have hp0mem : p0 ∈ ps := List.mem_of_find?_eq_some hfind
      have hp0id := List.find?_some hfind
      simp only [beq_iff_eq] at hp0id
      rw [restoreStock, hfind]
      simp only [List.map_map]
      apply List.map_congr_left
      intro q hq
      by_cases h : (q.id == it.product_id) = true
      · have hqp0 : q = p0 := by
          apply List.inj_on_of_nodup_map hnd hq hp0mem
          rw [beq_iff_eq] at h
          rw [h, hp0id]
        have hmatch : (it.product_id == q.id) = true := by
          rw [beq_iff_eq] at h ⊢
          exact h.symm
        subst hqp0
        cases q with
        | mk qid qname qprice qstock qact =>
          simp only [Function.comp, h, if_pos, addBack_cons, hmatch, if_true]
          simp only [Product.mk.injEq, true_and]
          exact ⟨add_assoc _ _ _, trivial⟩
      · have hmatch : (it.product_id == q.id) = false := by
          simp only [beq_eq_false_iff_ne]
          rw [beq_iff_eq] at h
          exact fun hx => h hx.symm
        cases q with
        | mk qid qname qprice qstock qact =>
          simp only [Function.comp, h, addBack_cons, hmatch, Bool.false_eq_true,
            if_false, zero_add]

/-- Stock state after cancelling order `oid`: every product's stock grows by
the total quantity its line items in that order carry. -/
def restoredProducts (db : DB) (oid : String) : List Product :=
  db.products.map (fun p =>
    { p with
      stock_quantity := p.stock_quantity + addBack (db.order_items.filter (fun it => it.order_id == oid)) p.id })

/-- C4: `cancel_order` succeeds only for orders owned by the caller whose
status is "pending" or "confirmed"; on success the order's status becomes
"cancelled" and every line item's quantity is added back to its product's
stock (stated per product via `addBack`, assuming pairwise-distinct product
ids, since the read-then-write pairs address rows by id); for an owned order
in any other status (e.g. "shipped") it fails with the 400 ConflictError
"Order cannot be cancelled" and mutates nothing. -/
theorem cancel_order_spec (db : DB) (user_id oid : String) (faults : CancelFaults)
    (hupd : faults.updateFails = false)
    (hnd : (db.products.map Product.id).Nodup) :
    (∀ o, db.orders.find? (fun q => q.id == oid && q.user_id == user_id) = some o →
       (o.status = "pending" ∨ o.status = "confirmed") →
       cancel_order oid user_id faults db =
         ⟨.ok ⟨oid, "cancelled"⟩,
          ⟨restoredProducts db oid,
           db.orders.map (fun o => if o.id == oid then { o with status := "cancelled", updated_at := some "now()" } else o),
           db.order_items,
           db.cart_items⟩⟩) ∧
    (∀ o, db.orders.find? (fun q => q.id == oid && q.user_id == user_id) = some o →
       o.status ≠ "pending" → o.status ≠ "confirmed" →
       cancel_order oid user_id faults db = ⟨.error ⟨400, "Order cannot be cancelled"⟩, db⟩) ∧
    (∀ r, (cancel_order oid user_id faults db).resp = .ok r →
       ∃ o, db.orders.find? (fun q => q.id == oid && q.user_id == user_id) = some o ∧
         (o.status = "pending" ∨ o.status = "confirmed")) := by
  refine ⟨?_, ?_, ?_⟩
  · intro o hfind hstat
    have hcond : (o.status == "pending" || o.status == "confirmed") = true := by
      rcases hstat with h | h <;> simp [h]
    simp only [cancel_order, hfind, hcond, Bool.not_true, Bool.false_eq_true, if_false, hupd]
    rw [restore_foldl _ _ hnd]
    simp [restoredProducts]
  · intro o hfind h1 h2
    have hcond : (o.status == "pending" || o.status == "confirmed") = false := by
      simp [h1, h2]
    simp [cancel_order, hfind, hcond]
  · intro r hr
    cases hfind : db.orders.find? (fun q => q.id == oid && q.user_id == user_id) with
    | none => simp [cancel_order, hfind] at hr
    | some o =>
      refine ⟨o, rfl, ?_⟩
      by_cases hcond : (o.status == "pending" || o.status == "confirmed") = true
      · simpa using hcond
      · simp [cancel_order, hfind, hcond] at hr

/-! ## Bounds of the thumbnail computation -/

lemma roundAspect_le (number : ℚ) (key : ℤ → ℚ) (b : ℕ) (hb : 1 ≤ b) (h : number ≤ (b : ℚ)) :
    (roundAspect number key).toNat ≤ b := by
  have hc : ⌈number⌉ ≤ (b : ℤ) := Int.ceil_le.mpr (by exact_mod_cast h)
  have hf : ⌊number⌋ ≤ (b : ℤ) := le_trans (Int.floor_le_ceil number) hc
  have hpick : roundAspect number key ≤ (b : ℤ) := by
    show max (if key ⌊number⌋ ≤ key ⌈number⌉ then ⌊number⌋ else ⌈number⌉) 1 ≤ (b : ℤ)
    apply max_le
    · split
      · exact hf
      · exact hc
    · exact_mod_cast hb
  omega

/-- Both output dimensions of `thumbnail((800, 800))` are at most 800. -/
lemma thumbnailSize_bounds (w h : Nat) :
    (thumbnailSize w h 800 800).1 ≤ 800 ∧ (thumbnailSize w h 800 800).2 ≤ 800 := by
  have h800 : ((800 : ℕ) : ℚ) / ((800 : ℕ) : ℚ) = 1 := by norm_num
  have hxbound : (w : ℚ) / (h : ℚ) ≤ ((800 : ℕ) : ℚ) / ((800 : ℕ) : ℚ) →
      ((800 : ℕ) : ℚ) * ((w : ℚ) / (h : ℚ)) ≤ ((800 : ℕ) : ℚ) := by
    intro hba
    rw [h800] at hba
    calc ((800 : ℕ) : ℚ) * ((w : ℚ) / (h : ℚ)) ≤ ((800 : ℕ) : ℚ) * 1 :=
          mul_le_mul_of_nonneg_left hba (by norm_num)
      _ = ((800 : ℕ) : ℚ) := mul_one _
  have hybound : ¬((w : ℚ) / (h : ℚ) ≤ ((800 : ℕ) : ℚ) / ((800 : ℕ) : ℚ)) →
      ((800 : ℕ) : ℚ) / ((w : ℚ) / (h : ℚ)) ≤ ((800 : ℕ) : ℚ) := by
    intro hba
    have h1 : (1 : ℚ) ≤ (w : ℚ) / (h : ℚ) := by
      have := lt_of_not_le hba
      rw [h800] at this
      exact le_of_lt this
    exact div_le_self (by norm_num) h1
  constructor
  · unfold thumbnailSize
    split
    next hfit => exact hfit.1
    next hfit =>
      dsimp only
      split
      next hba => exact roundAspect_le _ _ _ (by norm_num) (hxbound hba)
      next hba => exact le_refl _
  · unfold thumbnailSize
    split
    next hfit => exact hfit.2
    next hfit =>
      dsimp only
      split
      next hba => exact le_refl _
      next hba => exact roundAspect_le _ _ _ (by norm_num) (hybound hba)

/-- When the image already fits the 800-box, `thumbnail` is a no-op. -/
lemma thumbnailSize_fits (w h : Nat) (hw : w ≤ 800) (hh : h ≤ 800) :
    thumbnailSize w h 800 800 = (w, h) := by
  unfold thumbnailSize
  rw [if_pos ⟨hw, hh⟩]

/-! ## Claim C8 -/

/-- C8 counterexample: a decodable grayscale ("L"-mode) image passes through
`_resize_image` without colour conversion — only the "RGBA" and "P" modes
are converted — so the re-encoded output is a 1-channel grayscale JPEG, not
the 3-channel RGB image the claim promises for every valid input. -/
theorem resize_image_grayscale_not_rgb :
    resize_image ⟨1000, true, "L", 1000, 500⟩ = .ok ⟨"L", 800, 400, "JPEG", 85, true⟩ ∧
    modeChannels "L" = 1 ∧ modeChannels "L" ≠ 3 := by
  refine ⟨?_, rfl, by decide⟩
  simp [resize_image, thumbnailSize, roundAspect, jpegSaveModes]
  norm_num
  omega

/-- C8 (amended): every successful run of `_resize_image` re-encodes as JPEG
at quality 85 with optimization and yields decoded dimensions of at most 800
on each axis (images already inside the box pass through unscaled); inputs
of mode "RGBA" or "P" — and only those — are first converted to RGB, while
any other mode (e.g. grayscale "L") keeps its channel count; the
identity-avatar pipeline `process_and_upload_avatar` instead always converts
to RGB and produces an exactly 300 by 300 JPEG at quality 85. -/
theorem resize_image_spec (img : ImgBytes) (out : OutImage)
    (hres : resize_image img = .ok out) :
    out.format = "JPEG" ∧ out.quality = 85 ∧ out.optimize = true ∧
    out.width ≤ 800 ∧ out.height ≤ 800 ∧
    ((img.mode = "RGBA" ∨ img.mode = "P") → out.mode = "RGB") ∧
    (img.mode ≠ "RGBA" → img.mode ≠ "P" → out.mode = img.mode) ∧
    (img.width ≤ 800 → img.height ≤ 800 → out.width = img.width ∧ out.height = img.height) ∧
    (∀ o300, process_image_300 img = .ok o300 →
       o300.mode = "RGB" ∧ o300.width = 300 ∧ o300.height = 300 ∧
       o300.format = "JPEG" ∧ o300.quality = 85 ∧ o300.optimize = true) := by
  by_cases hdec : img.decodable = true
  · rw [resize_image] at hres
    rw [hdec] at hres
    simp only [Bool.not_true, Bool.false_eq_true, if_false] at hres
    by_cases hsave : jpegSaveModes.contains
        (if (img.mode == "RGBA" || img.mode == "P") = true then "RGB" else img.mode) = true
    · rw [if_pos hsave] at hres
      cases hres
      refine ⟨rfl, rfl, rfl, (thumbnailSize_bounds img.width img.height).1,
        (thumbnailSize_bounds img.width img.height).2, ?_, ?_, ?_, ?_⟩
      · intro hm
        have : (img.mode == "RGBA" || img.mode == "P") = true := by
          rcases hm with h | h <;> simp [h]
        simp [this]
      · intro h1 h2
        have : (img.mode == "RGBA" || img.mode == "P") = false := by
          simp [h1, h2]
        simp [this]
      · intro hw hh
        rw [thumbnailSize_fits img.width img.height hw hh]
        exact ⟨rfl, rfl⟩
      · intro o300 h300
        rw [process_image_300, hdec] at h300
        simp only [Bool.not_true, Bool.false_eq_true, if_false] at h300
        cases h300
        exact ⟨rfl, rfl, rfl, rfl, rfl, rfl⟩
    · rw [if_neg hsave] at hres
      cases hres
  · rw [resize_image] at hres
    rw [Bool.not_eq_true] at hdec
    rw [hdec] at hres
    simp at hres

/-! ## Claim C7 -/

/-- Oversized input used in the C7 counterexample: one byte above 5 MiB. -/
def bigFile : UploadFile := ⟨⟨5 * 1024 * 1024 + 1, true, "RGB", 4000, 3000⟩, some "image/jpeg"⟩

/-- C7 counterexample: an avatar upload one byte above the 5 MiB limit is
rejected with HTTP status 413, not the 400 the claim assigns to every
validation failure (no blob is uploaded, as the unchanged store shows). -/
theorem upload_avatar_size_413_not_400 :
    upload_avatar "u1" bigFile "aa" {} [] =
      (.error ⟨413, "File too large. Maximum size is 5MB"⟩, []) ∧
    ∀ e, (upload_avatar "u1" bigFile "aa" {} []).1 = .error e → e.status_code ≠ 400 := by
  have h : upload_avatar "u1" bigFile "aa" {} [] =
      (.error ⟨413, "File too large. Maximum size is 5MB"⟩, []) := by
    simp [upload_avatar, validate_image, bigFile, max_file_size]
  refine ⟨h, ?_⟩
  intro e he
  rw [h] at he
  cases he
  decide

/-- C7 (amended): `upload_avatar` rejects each invalid input before touching
the blob store — the store comes back unchanged, so no blob is uploaded —
but the size failure maps to HTTP 413 while the content-type and decode
failures map to HTTP 400: input above 5 MiB fails with 413 "File too large";
a declared content type outside the raster allow-list fails with 400
"Invalid file type"; bytes that do not decode as an image fail with 400
"Invalid image file". -/
theorem upload_avatar_rejects_invalid (user_id : String) (file : UploadFile)
    (uuid_hex : String) (faults : StorageFaults) (store : List String) :
    (max_file_size < file.data.size →
       upload_avatar user_id file uuid_hex faults store =
         (.error ⟨413, "File too large. Maximum size is 5MB"⟩, store)) ∧
    (file.data.size ≤ max_file_size →
       (allowed_types.map some).contains file.content_type = false →
       upload_avatar user_id file uuid_hex faults store =
         (.error ⟨400, invalidTypeMsg⟩, store)) ∧
    (file.data.size ≤ max_file_size →
       (allowed_types.map some).contains file.content_type = true →
       file.data.decodable = false →
       upload_avatar user_id file uuid_hex faults store =
         (.error ⟨400, "Invalid image file"⟩, store)) := by
  refine ⟨?_, ?_, ?_⟩
  · intro hsz
    have hv : validate_image file.data file.content_type =
        .error ⟨413, "File too large. Maximum size is 5MB"⟩ := by
      unfold validate_image
      rw [if_pos hsz]
    unfold upload_avatar
    rw [hv]
  · intro hsz hct
    have hv : validate_image file.data file.content_type =
        .error ⟨400, invalidTypeMsg⟩ := by
      unfold validate_image
      rw [if_neg (not_lt.mpr hsz), hct]
      simp
    unfold upload_avatar
    rw [hv]
  · intro hsz hct hdec
    have hv : validate_image file.data file.content_type =
        .error ⟨400, "Invalid image file"⟩ := by
      unfold validate_image
      rw [if_neg (not_lt.mpr hsz), hct, hdec]
      simp
    unfold upload_avatar
    rw [hv]

/-! ## Claim C9 -/

lemma filter_not_filter {α : Type} (p : α → Bool) (l : List α) :
    (l.filter (fun a => !p a)).filter p = [] := by
  induction l with
  | nil => rfl
  | cons a l ih =>
    by_cases h : p a = true
    · simp [List.filter_cons, h, ih]
    · simp only [Bool.not_eq_true] at h
      simp [List.filter_cons, h, ih]

lemma strStartsWith_append (pre rest : String) : strStartsWith (pre ++ rest) pre = true := by
  unfold strStartsWith
  rw [String.data_append, List.isPrefixOf_iff_prefix]
  exact List.prefix_append pre.data rest.data

/-- The avatar filename generated for `user_id` starts with `user_id + "_"`. -/
lemma avatarName_startsWith (user_id uuid_hex : String) :
    strStartsWith (user_id ++ "_" ++ uuid_hex ++ ".jpg") (user_id ++ "_") = true := by
  have hassoc : user_id ++ "_" ++ uuid_hex ++ ".jpg" =
      (user_id ++ "_") ++ (uuid_hex ++ ".jpg") := by
    simp [String.append_assoc]
  rw [hassoc]
  exact strStartsWith_append _ _

/-- With no injected blob-store failure, `delete_user_avatar` leaves exactly
the objects whose name does not start with the owner prefix. -/
lemma delete_user_avatar_ok (user_id : String) (store : List String) :
    delete_user_avatar user_id { } store =
      (true, store.filter (fun n => !strStartsWith n (user_id ++ "_"))) := by
  unfold delete_user_avatar
  simp only [Bool.false_eq_true, if_false]
  by_cases he : (store.filter (fun n => strStartsWith n (user_id ++ "_"))).isEmpty = true
  · rw [if_pos he]
    have hnil : store.filter (fun n => strStartsWith n (user_id ++ "_")) = [] :=
      List.isEmpty_iff.mp he
    have hsame : store.filter (fun n => !strStartsWith n (user_id ++ "_")) = store := by
      apply List.filter_eq_self.mpr
      intro a ha
      have hfa := List.filter_eq_nil_iff.mp hnil a ha
      simp only [Bool.not_eq_true] at hfa ⊢
      simp [hfa]
    rw [hsame]
  · rw [if_neg he]

/-- Successful upload: the returned store is the old one minus every object
of the owner, plus the freshly named object. -/
lemma upload_avatar_ok (user_id : String) (file : UploadFile) (uuid_hex : String)
    (store : List String) (o : OutImage)
    (hv : validate_image file.data file.content_type = .ok true)
    (hr : resize_image file.data = .ok o) :
    upload_avatar user_id file uuid_hex { } store =
      (.ok (public_url ("avatars/" ++ (user_id ++ "_" ++ uuid_hex ++ ".jpg"))),
       store.filter (fun n => !strStartsWith n (user_id ++ "_")) ++
         [user_id ++ "_" ++ uuid_hex ++ ".jpg"]) := by
  unfold upload_avatar
  rw [hv, hr, delete_user_avatar_ok]

/-- C9: two sequential successful avatar uploads for the same owner (with the
best-effort prefix-delete succeeding, i.e. no injected blob-store fault)
leave exactly one object of that owner in the store: the object of the
second upload; the first upload's object and any older ones are gone. -/
theorem upload_avatar_single_object_per_owner (user_id : String) (f1 f2 : UploadFile)
    (uuid1 uuid2 : String) (store : List String) (o1 o2 : OutImage)
    (h1v : validate_image f1.data f1.content_type = .ok true)
    (h1r : resize_image f1.data = .ok o1)
    (h2v : validate_image f2.data f2.content_type = .ok true)
    (h2r : resize_image f2.data = .ok o2) :
    (∃ url, (upload_avatar user_id f1 uuid1 { } store).1 = .ok url) ∧
    (∃ url, (upload_avatar user_id f2 uuid2 { }
        (upload_avatar user_id f1 uuid1 { } store).2).1 = .ok url) ∧
    ((upload_avatar user_id f2 uuid2 { }
        (upload_avatar user_id f1 uuid1 { } store).2).2.filter
          (fun n => strStartsWith n (user_id ++ "_"))) =
      [user_id ++ "_" ++ uuid2 ++ ".jpg"] := by
  rw [upload_avatar_ok user_id f1 uuid1 store o1 h1v h1r]
  rw [upload_avatar_ok user_id f2 uuid2 _ o2 h2v h2r]
  refine ⟨⟨_, rfl⟩, ⟨_, rfl⟩, ?_⟩
  rw [List.filter_append, filter_not_filter]
  simp [avatarName_startsWith]

/-! ## Claim C10 -/

lemma ne_of_head_ne (s t : String) (h : s.data.head? ≠ t.data.head?) : s ≠ t :=
  fun he => h (congrArg (fun x => x.data.head?) he)

lemma invalidTypeMsg_head : invalidTypeMsg.data.head? = some 'I' := by
  rfl

lemma resize_mode_err_ne_type_msg (m : String) :
    ("Error processing image: cannot write mode " ++ m ++ " as JPEG") ≠ invalidTypeMsg := by
  apply ne_of_head_ne
  have h1 : ("Error processing image: cannot write mode " ++ m ++ " as JPEG").data.head? =
      some 'E' := by
    rw [String.data_append]
    rfl
  rw [h1, invalidTypeMsg_head]
  decide

lemma upload_err_ne_type_msg (m : String) :
    ("Upload failed: " ++ m) ≠ invalidTypeMsg := by
  apply ne_of_head_ne
  have h1 : ("Upload failed: " ++ m).data.head? = some 'U' := by
    rw [String.data_append]
    rfl
  rw [h1, invalidTypeMsg_head]
  decide

/-- Errors of `_validate_image` under the hard-coded "image/jpeg" content
type: the allow-list rejection is impossible; only the size error and the
decode error remain. -/
lemma validate_image_jpeg_error (d : ImgBytes) (e : HErr)
    (h : validate_image d (some "image/jpeg") = .error e) :
    e = ⟨413, "File too large. Maximum size is 5MB"⟩ ∨
    e = ⟨400, "Invalid image file"⟩ := by
  unfold validate_image at h
  split at h
  · cases h
    left
    rfl
  · split at h
    · next hcond => exact absurd hcond (by decide)
    · split at h
      · cases h
        right
        rfl
      · cases h

/-- No error produced by `_resize_image` carries the allow-list detail. -/
lemma resize_image_error_detail (d : ImgBytes) (e : HErr)
    (h : resize_image d = .error e) : e.detail ≠ invalidTypeMsg := by
  unfold resize_image at h
  split at h
  · cases h
    decide
  · dsimp only at h
    split at h <;> split at h <;> cases h
    all_goals exact resize_mode_err_ne_type_msg _

/-- C10: the content-type allow-list check can never reject a base64 avatar
upload — `upload_from_base64` hard-codes the declared type to "image/jpeg",
which is in the allow-list — so no outcome of `upload_from_base64` carries
the "Invalid file type" detail, and any decoded payload within the size
limit that opens as an image (of any format) passes validation. -/
theorem upload_from_base64_type_check_never_rejects :
    (∀ (user_id : String) (input : Base64Input) (uuid_hex : String)
       (faults : StorageFaults) (store : List String) (e : HErr),
       (upload_from_base64 user_id input uuid_hex faults store).1 = .error e →
       e.detail ≠ invalidTypeMsg) ∧
    (∀ d : ImgBytes, d.size ≤ max_file_size → d.decodable = true →
       validate_image d (some "image/jpeg") = .ok true) := by
  have hval : ∀ d : ImgBytes, d.size ≤ max_file_size → d.decodable = true →
      validate_image d (some "image/jpeg") = .ok true := by
    intro d hsz hdec
    unfold validate_image
    rw [if_neg (not_lt.mpr hsz)]
    rw [show ((allowed_types.map some).contains (some "image/jpeg")) = true by decide, hdec]
    simp
  refine ⟨?_, hval⟩
  intro user_id input uuid_hex faults store e he
  unfold upload_from_base64 at he
  split at he
  · cases he
    decide
  · cases hvi : validate_image input.data (some "image/jpeg") with
    | error ev =>
      rw [hvi] at he
      cases he
      rcases validate_image_jpeg_error input.data _ hvi with rfl | rfl
      · decide
      · decide
    | ok v =>
      rw [hvi] at he
      cases hri : resize_image input.data with
      | error er =>
        rw [hri] at he
        cases he
        exact resize_image_error_detail input.data _ hri
      | ok o =>
        rw [hri] at he
        cases hup : faults.uploadError with
        | some msg =>
          rw [hup] at he
          cases he
          exact upload_err_ne_type_msg msg
        | none =>
          rw [hup] at he
          cases he

/-! ## Witnesses: the hypothesised theorems applied at concrete inputs -/

/-- Store used by the order-side witnesses. -/
def dbW : DB := ⟨[⟨"P1", "Widget", 100, 5, true⟩, ⟨"P2", "Gadget", 50, 10, true⟩], [], [], [⟨"c1", "u1", "P1", 1⟩]⟩

/-- Request used by the order-side witnesses; the second item carries a
client-supplied price field, which the handler ignores. -/
def reqW : OrderData := { items := [⟨some "P1", none, some 2, none⟩, ⟨some "P2", none, some 3, some 1⟩] }

lemma reqW_all_ok : ∀ it ∈ reqW.items,
    ∃ p, findActiveProduct dbW it.pid = some p ∧ it.qty ≤ p.stock_quantity := by
  intro it hit
  simp only [reqW, List.mem_cons, List.mem_singleton, List.not_mem_nil, or_false] at hit
  rcases hit with rfl | rfl
  · exact ⟨⟨"P1", "Widget", 100, 5, true⟩, rfl, by norm_num [ReqItem.qty]⟩
  · exact ⟨⟨"P2", "Gadget", 50, 10, true⟩, rfl, by norm_num [ReqItem.qty]⟩

theorem create_order_prices_from_catalog_witness :
    (reqW.items ≠ [] ∧
     ∀ it ∈ reqW.items, ∃ p, findActiveProduct dbW it.pid = some p ∧ it.qty ≤ p.stock_quantity) ∧
    (create_order "u1" reqW ["i1", "i2"] "o1" {} dbW).resp = .ok ⟨"o1", 350, "pending"⟩ := by
  have hne : reqW.items ≠ [] := by simp [reqW]
  refine ⟨⟨hne, reqW_all_ok⟩, ?_⟩
  obtain ⟨rows, heq, -, -, -⟩ :=
    create_order_prices_from_catalog dbW "u1" reqW ["i1", "i2"] "o1" {} hne reqW_all_ok rfl rfl rfl
  rw [heq]
  have htot : expectedTotal dbW reqW.items = 350 := by
    simp [expectedTotal, lineTotal, reqW, dbW, findActiveProduct, ReqItem.pid, ReqItem.qty]
    norm_num
  simp [htot]

/-- Store and request for the C2-amended witness: P1 holds stock 1, 5 are
requested. -/
def dbW2 : DB := ⟨[⟨"P1", "Widget", 100, 1, true⟩], [], [], []⟩

def reqW2 : OrderData := { items := [⟨some "P1", none, some 5, none⟩] }

theorem create_order_insufficient_stock_conflict_witness :
    ((∀ it ∈ reqW2.items, ∃ p, findActiveProduct dbW2 it.pid = some p) ∧
     (∃ it ∈ reqW2.items, ∃ p, findActiveProduct dbW2 it.pid = some p ∧ p.stock_quantity < it.qty)) ∧
    create_order "u1" reqW2 ["i1"] "o1" {} dbW2 =
      ⟨.error ⟨400, "Insufficient stock for product Widget"⟩, dbW2⟩ := by
  have hall : ∀ it ∈ reqW2.items, ∃ p, findActiveProduct dbW2 it.pid = some p := by
    intro it hit
    simp only [reqW2, List.mem_singleton] at hit
    subst hit
    exact ⟨⟨"P1", "Widget", 100, 1, true⟩, rfl⟩
  have hbad : ∃ it ∈ reqW2.items, ∃ p, findActiveProduct dbW2 it.pid = some p ∧ p.stock_quantity < it.qty := by
    refine ⟨⟨some "P1", none, some 5, none⟩, by simp [reqW2], ⟨"P1", "Widget", 100, 1, true⟩, rfl, ?_⟩
    norm_num [ReqItem.qty]
  refine ⟨⟨hall, hbad⟩, ?_⟩
  obtain ⟨it, p, hmem, hp, hlt, heq⟩ :=
    create_order_insufficient_stock_conflict dbW2 "u1" reqW2 ["i1"] "o1" {} hall hbad
  have hit : it = ⟨some "P1", none, some 5, none⟩ := by
    simpa [reqW2] using hmem
  subst hit
  have hpp : (some ⟨"P1", "Widget", 100, 1, true⟩ : Option Product) = some p := by
    rw [← hp]
    rfl
  cases hpp
  exact heq

theorem cancel_order_spec_witness :
    (({} : CancelFaults).updateFails = false ∧
     ((⟨[⟨"P1", "W", 100, 3, true⟩],
        [⟨"o1", "u1", "pending", 200, "", "cod", none, "now()", none⟩],
        [⟨"i1", "o1", "P1", 2, 100⟩], []⟩ : DB).products.map Product.id).Nodup) ∧
    cancel_order "o1" "u1" {}
        ⟨[⟨"P1", "W", 100, 3, true⟩],
         [⟨"o1", "u1", "pending", 200, "", "cod", none, "now()", none⟩],
         [⟨"i1", "o1", "P1", 2, 100⟩], []⟩ =
      ⟨.ok ⟨"o1", "cancelled"⟩,
       ⟨[⟨"P1", "W", 100, 5, true⟩],
        [⟨"o1", "u1", "cancelled", 200, "", "cod", none, "now()", some "now()"⟩],
        [⟨"i1", "o1", "P1", 2, 100⟩], []⟩⟩ := by
  refine ⟨⟨rfl, by simp⟩, ?_⟩
  have h := (cancel_order_spec
      ⟨[⟨"P1", "W", 100, 3, true⟩],
       [⟨"o1", "u1", "pending", 200, "", "cod", none, "now()", none⟩],
       [⟨"i1", "o1", "P1", 2, 100⟩], []⟩ "u1" "o1" {} rfl (by simp)).1
    ⟨"o1", "u1", "pending", 200, "", "cod", none, "now()", none⟩ rfl (Or.inl rfl)
  rw [h]
  simp [restoredProducts, addBack]

theorem create_order_items_failure_witness :
    (reqW.items ≠ [] ∧
     (∀ it ∈ reqW.items, ∃ p, findActiveProduct dbW it.pid = some p ∧ it.qty ≤ p.stock_quantity) ∧
     (⟨false, true, none⟩ : OrderFaults).ordersInsertFails = false ∧
     (⟨false, true, none⟩ : OrderFaults).itemsInsertFails = true) ∧
    (create_order "u1" reqW ["i1", "i2"] "o1" ⟨false, true, none⟩ dbW).resp =
      .error ⟨400, "Failed to create order items"⟩ ∧
    (create_order "u1" reqW ["i1", "i2"] "o1" ⟨false, true, none⟩ dbW).db.orders = [] := by
  have hne : reqW.items ≠ [] := by simp [reqW]
  have h := create_order_items_failure_rolls_back_header dbW "u1" reqW ["i1", "i2"] "o1"
    ⟨false, true, none⟩ hne reqW_all_ok rfl rfl
  refine ⟨⟨hne, reqW_all_ok, rfl, rfl⟩, h.1, ?_⟩
  rw [h.2.1]
  rfl

theorem create_order_cart_clear_failure_witness :
    (reqW.items ≠ [] ∧
     (∀ it ∈ reqW.items, ∃ p, findActiveProduct dbW it.pid = some p ∧ it.qty ≤ p.stock_quantity) ∧
     (⟨false, false, some "boom"⟩ : OrderFaults).cartDeleteExc = some "boom") ∧
    (create_order "u1" reqW ["i1", "i2"] "o1" ⟨false, false, some "boom"⟩ dbW).resp =
      .error ⟨500, "Failed to create order: boom"⟩ ∧
    (create_order "u1" reqW ["i1", "i2"] "o1" ⟨false, false, some "boom"⟩ dbW).db.cart_items =
      dbW.cart_items := by
  have hne : reqW.items ≠ [] := by simp [reqW]
  obtain ⟨rows, heq, -⟩ := create_order_cart_clear_failure_no_rollback dbW "u1" reqW
    ["i1", "i2"] "o1" ⟨false, false, some "boom"⟩ "boom" hne reqW_all_ok rfl rfl rfl
  refine ⟨⟨hne, reqW_all_ok, rfl⟩, ?_, by rw [heq]⟩
  rw [heq]
  rfl

theorem upload_avatar_rejects_invalid_witness :
    (max_file_size < bigFile.data.size ∧
     ((⟨⟨100, true, "RGB", 10, 10⟩, some "text/plain"⟩ : UploadFile).data.size ≤ max_file_size ∧
      (allowed_types.map some).contains
        (⟨⟨100, true, "RGB", 10, 10⟩, some "text/plain"⟩ : UploadFile).content_type = false)) ∧
    upload_avatar "u2" bigFile "bb" {} ["keep.jpg"] =
      (.error ⟨413, "File too large. Maximum size is 5MB"⟩, ["keep.jpg"]) ∧
    upload_avatar "u2" ⟨⟨100, true, "RGB", 10, 10⟩, some "text/plain"⟩ "bb" {} ["keep.jpg"] =
      (.error ⟨400, invalidTypeMsg⟩, ["keep.jpg"]) := by
  refine ⟨⟨by decide, by decide, by decide⟩, ?_, ?_⟩
  · exact (upload_avatar_rejects_invalid "u2" bigFile "bb" {} ["keep.jpg"]).1 (by decide)
  · exact (upload_avatar_rejects_invalid "u2" ⟨⟨100, true, "RGB", 10, 10⟩, some "text/plain"⟩
      "bb" {} ["keep.jpg"]).2.1 (by decide) (by decide)

theorem resize_image_spec_witness :
    resize_image ⟨1000, true, "RGB", 4000, 3000⟩ = .ok ⟨"RGB", 800, 600, "JPEG", 85, true⟩ ∧
    (⟨"RGB", 800, 600, "JPEG", 85, true⟩ : OutImage).width ≤ 800 ∧
    (⟨"RGB", 800, 600, "JPEG", 85, true⟩ : OutImage).height ≤ 800 ∧
    (⟨"RGB", 800, 600, "JPEG", 85, true⟩ : OutImage).quality = 85 := by
  have hres : resize_image ⟨1000, true, "RGB", 4000, 3000⟩ =
      .ok ⟨"RGB", 800, 600, "JPEG", 85, true⟩ := by
    simp [resize_image, thumbnailSize, roundAspect, jpegSaveModes]
    norm_num
    omega
  have h := resize_image_spec ⟨1000, true, "RGB", 4000, 3000⟩ ⟨"RGB", 800, 600, "JPEG", 85, true⟩ hres
  exact ⟨hres, h.2.2.2.1, h.2.2.2.2.1, h.2.1⟩

/-- Image used by the C9 witness. -/
def fW : UploadFile := ⟨⟨100, true, "RGB", 1000, 700⟩, some "image/png"⟩

theorem upload_avatar_single_object_witness :
    (validate_image fW.data fW.content_type = .ok true ∧
     resize_image fW.data = .ok ⟨"RGB", 800, 560, "JPEG", 85, true⟩) ∧
    ((upload_avatar "u1" fW "bb" { }
        (upload_avatar "u1" fW "aa" { } ["u1_old.jpg", "u2_x.jpg"]).2).2.filter
          (fun n => strStartsWith n ("u1" ++ "_"))) =
      ["u1" ++ "_" ++ "bb" ++ ".jpg"] := by
  have hv : validate_image fW.data fW.content_type = .ok true := rfl
  have hr : resize_image fW.data = .ok ⟨"RGB", 800, 560, "JPEG", 85, true⟩ := by
    simp [fW, resize_image, thumbnailSize, roundAspect, jpegSaveModes]
    norm_num
    omega
  exact ⟨⟨hv, hr⟩,
    (upload_avatar_single_object_per_owner "u1" fW fW "aa" "bb" ["u1_old.jpg", "u2_x.jpg"]
      _ _ hv hr hv hr).2.2⟩

theorem upload_from_base64_witness :
    ((⟨100, true, "P", 10, 10⟩ : ImgBytes).size ≤ max_file_size ∧
     (⟨100, true, "P", 10, 10⟩ : ImgBytes).decodable = true) ∧
    validate_image ⟨100, true, "P", 10, 10⟩ (some "image/jpeg") = .ok true ∧
    ∀ e, (upload_from_base64 "u1" ⟨true, ⟨100, false, "", 0, 0⟩⟩ "aa" {} []).1 = .error e →
      e.detail ≠ invalidTypeMsg := by
  refine ⟨⟨by decide, rfl⟩, ?_, ?_⟩
  · exact upload_from_base64_type_check_never_rejects.2 ⟨100, true, "P", 10, 10⟩ (by decide) rfl
  · intro e he
    exact upload_from_base64_type_check_never_rejects.1 "u1" ⟨true, ⟨100, false, "", 0, 0⟩⟩ "aa" {} [] e he

end ShopZone
